import Mathlib

/-!
Verification of the deepscope claim-verification pipeline.

The definitions below are a shallow embedding of the Python sources:
  * `src/verdict_aggregator.py` — `aggregate_source_results`, `aggregate_verdicts`;
  * `src/factchecker.py` — `GoogleFactCheckAPI._interpret_rating`,
    `GoogleFactCheckAPI.retry_with_backoff`, `GoogleFactCheckAPI.check_claim`,
    `FactChecker.check_fact`;
  * `src/services/fact_check_service.py` — `FactCheckerService.check_fact`.

Python floats are embedded as rationals (the confidences manipulated here are
exact small fractions), strings whose character content matters are embedded as
`List Char`, and Python dictionaries as structures carrying exactly the fields
the embedded code reads or writes.  Wall-clock data (`datetime.utcnow()`,
`time.time()` stamps) and log output are elided: no embedded property reads
them.
-/

namespace Deepscope

/-- A per-source verdict record, as consumed by `aggregate_source_results`
(`src/verdict_aggregator.py`).  The aggregator reads only the
`"verification"` key of each record. -/
structure SourceResult where
  verification : String
deriving DecidableEq, Repr

/-- The `"verdict"` sub-dictionary produced by `aggregate_source_results`. -/
structure Verdict where
  status : String
  confidence : ℚ
  summary : String
deriving DecidableEq, Repr

/-- The `"metadata"` sub-dictionary produced by `aggregate_source_results`
(`processing_time` starts as `None` and may be filled by `aggregate_verdicts`). -/
structure Metadata where
  processing_time : Option ℚ
  sources_checked : Nat
  sources_with_data : Nat
deriving DecidableEq, Repr

/-- The dictionary returned by `aggregate_source_results`. -/
structure AggregateResult where
  verdict : Verdict
  sources : List SourceResult
  metadata : Metadata
deriving DecidableEq, Repr

/-- Embedding of `aggregate_source_results` (`src/verdict_aggregator.py`,
lines 5–84).  Tallies the `verification` fields, then branches exactly as the
Python `if`/`elif` chain does. -/
def aggregate_source_results (source_results : List SourceResult) : AggregateResult :=
  let match_count := source_results.countP (fun r => r.verification == "match")
  let mismatch_count := source_results.countP (fun r => r.verification == "mismatch")
  let conflicting_count := source_results.countP (fun r => r.verification == "conflicting")
  let total_sources := source_results.length
  let sources_with_data := source_results.countP (fun r => r.verification != "no_data")
  let metadata : Metadata :=
    { processing_time := none
      sources_checked := total_sources
      sources_with_data := sources_with_data }
  if match_count = 0 ∧ mismatch_count = 0 ∧ conflicting_count = 0 then
    { verdict :=
        { status := "unverified"
          confidence := 0
          summary := "No sources provided relevant data" }
      sources := source_results
      metadata := metadata }
  else if conflicting_count > 0 then
    { verdict :=
        { status := "conflicting"
          confidence := 1/2
          summary := "Sources provided contradictory findings" }
      sources := source_results
      metadata := metadata }
  else if match_count > mismatch_count then
    { verdict :=
        { status := "true"
          confidence := (match_count : ℚ) / ((match_count : ℚ) + (mismatch_count : ℚ))
          summary := "Claim appears to be true based on " ++ toString match_count ++
            " supporting sources" }
      sources := source_results
      metadata := metadata }
  else if mismatch_count > match_count then
    { verdict :=
        { status := "false"
          confidence := (mismatch_count : ℚ) / ((match_count : ℚ) + (mismatch_count : ℚ))
          summary := "Claim appears to be false based on " ++ toString mismatch_count ++
            " contradicting sources" }
      sources := source_results
      metadata := metadata }
  else
    { verdict :=
        { status := "conflicting"
          confidence := 1/2
          summary := "Equal match/mismatch, so final result is conflicting" }
      sources := source_results
      metadata := metadata }

/-- Abbreviation for the match tally of `aggregate_source_results`. -/
def matchCount (source_results : List SourceResult) : Nat :=
  source_results.countP (fun r => r.verification == "match")

/-- Abbreviation for the mismatch tally of `aggregate_source_results`. -/
def mismatchCount (source_results : List SourceResult) : Nat :=
  source_results.countP (fun r => r.verification == "mismatch")

/-- Abbreviation for the conflicting tally of `aggregate_source_results`. -/
def conflictingCount (source_results : List SourceResult) : Nat :=
  source_results.countP (fun r => r.verification == "conflicting")

/-- One element of the `claims_results` argument of `aggregate_verdicts`
(`src/verdict_aggregator.py`): the function reads the keys `claim_text`,
`checked_sources` and `source_context`. -/
structure ClaimResult where
  claim_text : String
  checked_sources : List SourceResult
  source_context : String
deriving DecidableEq, Repr

/-- The `"claim"` sub-dictionary that `aggregate_verdicts` builds for each
claim.  The `timestamp` key (`datetime.utcnow()`) is wall-clock data and is
elided. -/
structure ClaimInfo where
  text : String
  language : String
  source_context : String
deriving DecidableEq, Repr

/-- One element of the `aggregated_results` list built by
`aggregate_verdicts`: the `"claim"` sub-dictionary merged (`**aggregated`)
with the dictionary returned by `aggregate_source_results`. -/
structure ClaimVerdictResult where
  claim : ClaimInfo
  verdict : Verdict
  sources : List SourceResult
  metadata : Metadata
deriving DecidableEq, Repr

/-- The `"summary"` sub-dictionary of the value returned by
`aggregate_verdicts` (its `timestamp` key is elided). -/
structure BatchSummary where
  total_claims : Nat
  verified_claims : Nat
  unverified_claims : Nat
  average_confidence : ℚ
deriving DecidableEq, Repr

/-- The dictionary returned by `aggregate_verdicts`. -/
structure BatchOutput where
  aggregated_results : List ClaimVerdictResult
  summary : BatchSummary
deriving DecidableEq, Repr

/-- The loop body of `aggregate_verdicts` for one element of
`claims_results`: aggregate its `checked_sources`, build the result
dictionary, and overwrite `metadata.processing_time` when the claim text is a
key of `processing_times` (the Python dict is embedded as a partial map
`String → Option ℚ`). -/
def claim_result_entry (processing_times : String → Option ℚ) (cr : ClaimResult) :
    ClaimVerdictResult :=
  let aggregated := aggregate_source_results cr.checked_sources
  let metadata :=
    match processing_times cr.claim_text with
    | some t => { aggregated.metadata with processing_time := some t }
    | none => aggregated.metadata
  { claim := { text := cr.claim_text, language := "en", source_context := cr.source_context }
    verdict := aggregated.verdict
    sources := aggregated.sources
    metadata := metadata }

/-- Embedding of `aggregate_verdicts` (`src/verdict_aggregator.py`, lines
86–131).  The loop accumulates, in order: the per-claim result dictionaries,
the count of claims whose verdict status is not in
`["unverified", "conflicting"]`, and the confidences of exactly those claims;
this is rendered as `map` / `filter` over the same list.
`statistics.mean` is sum divided by length, and the `if confidences` guard is
the `isEmpty` test. -/
def aggregate_verdicts (claims_results : List ClaimResult)
    (processing_times : String → Option ℚ) : BatchOutput :=
  let aggregated_results := claims_results.map (claim_result_entry processing_times)
  let verified_results := aggregated_results.filter
    (fun r => !(r.verdict.status == "unverified" || r.verdict.status == "conflicting"))
  let verified_claims := verified_results.length
  let confidences := verified_results.map (fun r => r.verdict.confidence)
  let total_claims := aggregated_results.length
  let avg_confidence : ℚ :=
    if confidences.isEmpty then 0 else confidences.sum / (confidences.length : ℚ)
  { aggregated_results := aggregated_results
    summary :=
      { total_claims := total_claims
        verified_claims := verified_claims
        unverified_claims := total_claims - verified_claims
        average_confidence := avg_confidence } }

/-- `startsWithChars needle hay` holds when `needle` is an initial segment of
`hay`; building block for the Python substring test `needle in hay`. -/
def startsWithChars : List Char → List Char → Bool
  | [], _ => true
  | _ :: _, [] => false
  | a :: as, b :: bs => a == b && startsWithChars as bs

/-- `containsChars needle hay` is the Python substring test
`needle in hay`: `needle` occurs contiguously somewhere in `hay`. -/
def containsChars (needle : List Char) : List Char → Bool
  | [] => startsWithChars needle []
  | b :: bs => startsWithChars needle (b :: bs) || containsChars needle bs

/-- The `false_indicators` list of `GoogleFactCheckAPI._interpret_rating`
(`src/factchecker.py`, lines 58–61, identical in
`src/services/fact_check_service.py`). -/
def false_indicators : List (List Char) :=
  [String.toList "incorrect", String.toList "false", String.toList "untrue",
   String.toList "misleading", String.toList "wrong", String.toList "inaccurate",
   String.toList "debunked", String.toList "no evidence", String.toList "not true",
   String.toList "mostly false"]

/-- The `true_indicators` list of `GoogleFactCheckAPI._interpret_rating`
(`src/factchecker.py`, lines 62–65). -/
def true_indicators : List (List Char) :=
  [String.toList "correct", String.toList "true", String.toList "accurate",
   String.toList "verified", String.toList "confirmed",
   String.toList "supported by evidence", String.toList "factual",
   String.toList "mostly true"]

/-- Embedding of `GoogleFactCheckAPI._interpret_rating` (`src/factchecker.py`,
lines 48–75; the copy in `src/services/fact_check_service.py`, lines 40–58, is
identical).  The rating string is embedded as `List Char`; the Python
falsiness test `if not textual_rating` is the empty-string test, `.lower()`
is a character-wise ASCII lowering, and the two `for` loops that return on
the first contained indicator are the `any` tests. -/
def interpret_rating (textual_rating : List Char) : String :=
  if textual_rating.isEmpty then "no_data"
  else
    let rating_lower := textual_rating.map Char.toLower
    if false_indicators.any (fun ind => containsChars ind rating_lower) then "mismatch"
    else if true_indicators.any (fun ind => containsChars ind rating_lower) then "match"
    else "no_data"

/-- One entry of the `claimReview` list of a claim item in the Google
Fact Check Tools response, with the fields `GoogleFactCheckAPI.check_claim`
reads. -/
structure ClaimReview where
  url : String
  publisher_name : String
  title : String
  textualRating : List Char
deriving DecidableEq, Repr

/-- One item of the `claims` list of the Google response. -/
structure GoogleClaim where
  claimReview : List ClaimReview
deriving DecidableEq, Repr

/-- The parsed HTTP response consumed by `GoogleFactCheckAPI.check_claim`:
its status code and the `claims` list of its JSON body. -/
structure HttpResponse where
  status_code : Nat
  claims : List GoogleClaim
deriving DecidableEq, Repr

/-- The observable behaviour of one call of the wrapped function inside
`GoogleFactCheckAPI.retry_with_backoff`: the call either raises an exception
(with message text) or produces a response. -/
inductive AttemptOutcome where
  | raises (msg : String)
  | responds (response : HttpResponse)
deriving DecidableEq, Repr

/-- Embedding of `GoogleFactCheckAPI.retry_with_backoff` (`src/factchecker.py`,
lines 30–46) applied to a list of successive call outcomes, one per loop
iteration (the call site uses `max_retries = 3`, so three outcomes).
Per iteration: a response with status other than 403 is returned at once; a
403 response is retried, except that when the loop ends the last bound
`result` (a 403 response) is returned; an exception is swallowed and retried,
except on the final attempt where it is re-raised.  The `time.sleep` backoff
delays are wall-clock effects and are elided.  The `[]` case corresponds to
`max_retries = 0`, where the Python `return result` would hit an unbound
local; it is unreachable from the call site. -/
def retry_with_backoff : List AttemptOutcome → Except String HttpResponse
  | [] => Except.error "UnboundLocalError: result"
  | [AttemptOutcome.responds r] => Except.ok r
  | [AttemptOutcome.raises msg] => Except.error msg
  | AttemptOutcome.responds r :: o :: rest =>
      if r.status_code ≠ 403 then Except.ok r else retry_with_backoff (o :: rest)
  | AttemptOutcome.raises _ :: o :: rest => retry_with_backoff (o :: rest)

/-- One element of the `all_reviews` list built by
`GoogleFactCheckAPI.check_claim`. -/
structure InterpretedReview where
  url : String
  publisher_name : String
  title : String
  textual_rating : List Char
  interpreted_rating : String
deriving DecidableEq, Repr

/-- The `evidence` dictionary of the record returned by
`GoogleFactCheckAPI.check_claim`: one of `{"api_response": ...}`,
`{"error": ...}` or `{"claim_reviews": ...}`. -/
inductive GEvidence where
  | api_response (text : String)
  | error_text (text : String)
  | claim_reviews (reviews : List InterpretedReview)
deriving DecidableEq, Repr

/-- The record returned by `GoogleFactCheckAPI.check_claim`. -/
structure GoogleSourceVerdict where
  source_name : String
  verification : String
  evidence : GEvidence
  source_url : String
deriving DecidableEq, Repr

/-- The `no_data_result` helper defined inside
`GoogleFactCheckAPI.check_claim` (`src/factchecker.py`, lines 89–95). -/
def no_data_result (api_response_text : String) : GoogleSourceVerdict :=
  { source_name := "Google Fact Check Tools Claims"
    verification := "no_data"
    evidence := GEvidence.api_response api_response_text
    source_url := "" }

/-- The dictionary appended to `all_reviews` for one claim review inside
`GoogleFactCheckAPI.check_claim` (`src/factchecker.py`, lines 115–123). -/
def interpretReview (rev : ClaimReview) : InterpretedReview :=
  { url := rev.url
    publisher_name := rev.publisher_name
    title := rev.title
    textual_rating := rev.textualRating
    interpreted_rating := interpret_rating rev.textualRating }

/-- The success path of `GoogleFactCheckAPI.check_claim`
(`src/factchecker.py`, lines 100–148), applied to the response delivered by
the retry wrapper.  The nested loops over `claims` and `claimReview` that
build `all_reviews` and the match/mismatch tallies are rendered as
`map` / `flatten` / `countP` over the same data in the same order. -/
def check_claim_response (response : HttpResponse) : GoogleSourceVerdict :=
  if response.status_code ≠ 200 then
    no_data_result ("Status code: " ++ toString response.status_code)
  else if response.claims.isEmpty then
    no_data_result "No claims returned by Google"
  else
    let all_reviews : List InterpretedReview :=
      (response.claims.map (fun item => item.claimReview.map interpretReview)).flatten
    let match_count := all_reviews.countP (fun r => r.interpreted_rating == "match")
    let mismatch_count := all_reviews.countP (fun r => r.interpreted_rating == "mismatch")
    if all_reviews.isEmpty then
      no_data_result "No claimReview data found"
    else
      let final_verification :=
        if match_count = 0 ∧ mismatch_count = 0 then "no_data"
        else if 0 < match_count ∧ mismatch_count = 0 then "match"
        else if 0 < mismatch_count ∧ match_count = 0 then "mismatch"
        else "conflicting"
      { source_name := "Google Fact Check Tools Claims"
        verification := final_verification
        evidence := GEvidence.claim_reviews all_reviews
        source_url := "" }

/-- Dispatch of `GoogleFactCheckAPI.check_claim` on the outcome of the
retried network call: an escaping exception is caught by the outer
`try`/`except`, producing the `{"error": str(e)}` record
(`src/factchecker.py`, lines 150–156); a delivered response is handled by
the success path. -/
def check_claim_result : Except String HttpResponse → GoogleSourceVerdict
  | Except.error e =>
      { source_name := "Google Fact Check Tools Claims"
        verification := "no_data"
        evidence := GEvidence.error_text e
        source_url := "" }
  | Except.ok response => check_claim_response response

/-- Embedding of `GoogleFactCheckAPI.check_claim` (`src/factchecker.py`,
lines 77–156).  The network call wrapped by `retry_with_backoff` is
represented by the list of its successive call outcomes. -/
def check_claim (attempts : List AttemptOutcome) : GoogleSourceVerdict :=
  check_claim_result (retry_with_backoff attempts)

/-- The flattened review list of a Google response body, in the order the
nested loops of `check_claim` visit it. -/
def allReviewsOf (cs : List GoogleClaim) : List ClaimReview :=
  (cs.map (fun item => item.claimReview)).flatten

/-- The match tally `check_claim` computes over a Google response body. -/
def googleMatchTally (cs : List GoogleClaim) : Nat :=
  (allReviewsOf cs).countP (fun rev => interpret_rating rev.textualRating == "match")

/-- The mismatch tally `check_claim` computes over a Google response body. -/
def googleMismatchTally (cs : List GoogleClaim) : Nat :=
  (allReviewsOf cs).countP (fun rev => interpret_rating rev.textualRating == "mismatch")

/-- The record returned by an adapter's `check_claim`, as read by
`FactChecker.check_fact` (`src/factchecker.py`): the only key it inspects is
`evidence.confidence`, which the Google adapter's records lack —
`llm_result.get("evidence", {}).get("confidence", 0)` then yields the
default `0`, embedded as an `Option`.  The remaining evidence payload is not
read by `check_fact` and is elided. -/
structure AdapterRecord where
  source_name : String
  verification : String
  evidence_confidence : Option ℚ
deriving DecidableEq, Repr

/-- `FactChecker.llm_confidence_threshold` (`src/factchecker.py`, line 224). -/
def llm_confidence_threshold : ℚ := 4/5

/-- Embedding of `FactChecker.check_fact` (`src/factchecker.py`, lines
234–241) as a function of the two adapter outcomes: if the LLM record's
`evidence.confidence` (default 0) is at least the threshold, the LLM record
is returned; otherwise the Google adapter is invoked and only its record is
returned. -/
def FactChecker_check_fact (llm_result google_result : AdapterRecord) : AdapterRecord :=
  let confidence := llm_result.evidence_confidence.getD 0
  if llm_confidence_threshold ≤ confidence then llm_result else google_result

/-- The fields of the LLM adapter record that
`FactCheckerService.check_fact` (`src/services/fact_check_service.py`)
reads: `source_name`, `verification`, `evidence.confidence` and
`evidence.reference_links`.  The service's LLM adapter only checks key
*presence* in the model's JSON reply, so `verification`, `confidence` and the
links reaching `check_fact` are unvalidated data. -/
structure ServiceLLMResult where
  source_name : String
  verification : String
  confidence : ℚ
  reference_links : List String
deriving DecidableEq, Repr

/-- The fields of the Google adapter record that
`FactCheckerService.check_fact` reads: `verification` and
`evidence.claim_reviews`. -/
structure ServiceGoogleResult where
  verification : String
  claim_reviews : List InterpretedReview
deriving DecidableEq, Repr

/-- One validated Pydantic `FactCheckSource` record built by
`FactCheckerService.check_fact` (`src/models/schemas.py`, lines 74–110),
with the `reference_links` of its `Evidence` sub-model.  The evidence's
`summary` (an unconstrained `str`) and `last_updated` timestamp are elided:
no embedded property reads them and they cannot fail validation. -/
structure ServiceSource where
  source_id : String
  source_name : String
  source_type : String
  verification : String
  confidence : ℚ
  reference_links : List String
deriving DecidableEq, Repr

/-- The dictionary returned by `FactCheckerService.check_fact`. -/
structure ServiceCheckResult where
  claim_text : String
  sources : List ServiceSource
deriving DecidableEq, Repr

/-- The `Literal["llm", "api"]` constraint of `FactCheckSource.source_type`
(`src/models/schemas.py`, line 107). -/
def validSourceType (t : String) : Bool :=
  t == "llm" || t == "api"

/-- The `Literal["match", "mismatch", "no_data", "conflicting"]` constraint
of `FactCheckSource.verification` (`src/models/schemas.py`, line 108). -/
def validVerification (v : String) : Bool :=
  v == "match" || v == "mismatch" || v == "no_data" || v == "conflicting"

/-- The `ge=0.0, le=1.0` constraint of `FactCheckSource.confidence`
(`src/models/schemas.py`, line 109). -/
def validConfidence (c : ℚ) : Bool :=
  decide (0 ≤ c) && decide (c ≤ 1)

/-- Constructing a Pydantic `Evidence` model (`src/models/schemas.py`, lines
50–72): every entry of `reference_links` must be a valid `HttpUrl`, else
pydantic raises `ValidationError`.  The `HttpUrl` grammar is defined by the
pydantic library, not by this repository, so it is taken as the parameter
`validUrl`. -/
def mkEvidence (validUrl : String → Bool) (reference_links : List String) :
    Except String (List String) :=
  if reference_links.all validUrl then Except.ok reference_links
  else Except.error "ValidationError: Evidence.reference_links"

/-- Constructing a Pydantic `FactCheckSource` model (`src/models/schemas.py`,
lines 74–110): `source_type` and `verification` must lie in their `Literal`
sets and `confidence` in `[0, 1]`, else pydantic raises `ValidationError`. -/
def mkFactCheckSource (source_id source_name source_type verification : String)
    (confidence : ℚ) (reference_links : List String) : Except String ServiceSource :=
  if validSourceType source_type && validVerification verification &&
      validConfidence confidence then
    Except.ok
      { source_id := source_id
        source_name := source_name
        source_type := source_type
        verification := verification
        confidence := confidence
        reference_links := reference_links }
  else Except.error "ValidationError: FactCheckSource"

/-- The loop of `FactCheckerService.check_fact` over the enumerated Google
claim reviews (`src/services/fact_check_service.py`, lines 308–324): for each
review it builds an `Evidence` from the single review URL and a
`FactCheckSource` from the interpreted rating; the first `ValidationError`
raised aborts the whole call. -/
def buildReviewSources (validUrl : String → Bool) :
    List (Nat × InterpretedReview) → Except String (List ServiceSource)
  | [] => Except.ok []
  | (i, rev) :: rest =>
      match mkEvidence validUrl [rev.url] with
      | Except.error e => Except.error e
      | Except.ok links =>
          match mkFactCheckSource ("google_review_" ++ toString (i + 1))
              rev.publisher_name "api" rev.interpreted_rating
              (if rev.interpreted_rating = "match" ∨ rev.interpreted_rating = "mismatch"
                then 1 else 0) links with
          | Except.error e => Except.error e
          | Except.ok src =>
              match buildReviewSources validUrl rest with
              | Except.error e => Except.error e
              | Except.ok rest_sources => Except.ok (src :: rest_sources)

/-- Embedding of `FactCheckerService.check_fact`
(`src/services/fact_check_service.py`, lines 262–329) as a function of the
two adapter outcomes.  It builds, in program order: the LLM `Evidence` and
`FactCheckSource`, the Google `Evidence` (one link per claim review) and
`FactCheckSource`, and one source per claim review — each construction
validating its Pydantic constraints, with the first `ValidationError`
escaping the call (only the batch wrapper `check_facts` catches it).  On
success it returns the LLM record first, the Google record second, then the
per-review records. -/
def FactCheckerService_check_fact (validUrl : String → Bool) (claim : String)
    (llm_res : ServiceLLMResult) (google_res : ServiceGoogleResult) :
    Except String ServiceCheckResult :=
  let model_name := "gpt4"
  match mkEvidence validUrl llm_res.reference_links with
  | Except.error e => Except.error e
  | Except.ok llm_links =>
      match mkFactCheckSource (model_name ++ "_1") llm_res.source_name "llm"
          llm_res.verification llm_res.confidence llm_links with
      | Except.error e => Except.error e
      | Except.ok llm_source =>
          let google_verification := google_res.verification
          let google_confidence : ℚ :=
            if google_verification = "match" ∨ google_verification = "mismatch" then 1
            else if google_verification = "conflicting" then 1/2
            else 0
          match mkEvidence validUrl (google_res.claim_reviews.map (fun rev => rev.url)) with
          | Except.error e => Except.error e
          | Except.ok google_links =>
              match mkFactCheckSource "google_factcheck_1" "Google Fact Check Tools"
                  "api" google_verification google_confidence google_links with
              | Except.error e => Except.error e
              | Except.ok google_source =>
                  match buildReviewSources validUrl google_res.claim_reviews.enum with
                  | Except.error e => Except.error e
                  | Except.ok google_review_sources =>
                      Except.ok
                        { claim_text := claim
                          sources := [llm_source, google_source] ++ google_review_sources }

/-- Concrete LLM adapter record with sub-threshold confidence, used to
exhibit the fallback behaviour of `FactChecker.check_fact`. -/
def cexLLM : AdapterRecord :=
  { source_name := "LLM Fact Checker"
    verification := "match"
    evidence_confidence := some (1/2) }

/-- Concrete Google adapter record paired with `cexLLM`. -/
def cexGoogle : AdapterRecord :=
  { source_name := "Google Fact Check Tools Claims"
    verification := "no_data"
    evidence_confidence := none }

/-- Reference-link validator used by the C4 witness: accepts strings that
start with the `https` scheme. -/
def wValidUrl : String → Bool :=
  fun url => startsWithChars (String.toList "https://") url.toList

/-- Well-formed LLM adapter outcome used by the C4 witness. -/
def wLLMResult : ServiceLLMResult :=
  { source_name := "gpt-4"
    verification := "match"
    confidence := 9/10
    reference_links := ["https://example.org/study"] }

/-- LLM adapter outcome with a verification outside the Pydantic `Literal`
set, used by the C4 witness for the `ValidationError` path. -/
def wBadLLMResult : ServiceLLMResult :=
  { source_name := "gpt-4"
    verification := "true"
    confidence := 9/10
    reference_links := [] }

/-- Google adapter outcome used by the C4 witness. -/
def wGoogleResult : ServiceGoogleResult :=
  { verification := "mismatch"
    claim_reviews :=
      [ { url := "https://factcheck.example.org/review"
          publisher_name := "Example Fact Check"
          title := ""
          textual_rating := String.toList "False"
          interpreted_rating := "mismatch" } ] }

/-- The value `FactCheckerService_check_fact` returns at the C4 witness
inputs. -/
def wServiceResult : ServiceCheckResult :=
  { claim_text := "w"
    sources :=
      [ { source_id := "gpt4_1", source_name := "gpt-4", source_type := "llm"
          verification := "match", confidence := 9/10
          reference_links := ["https://example.org/study"] },
        { source_id := "google_factcheck_1", source_name := "Google Fact Check Tools"
          source_type := "api", verification := "mismatch", confidence := 1
          reference_links := ["https://factcheck.example.org/review"] },
        { source_id := "google_review_1", source_name := "Example Fact Check"
          source_type := "api", verification := "mismatch", confidence := 1
          reference_links := ["https://factcheck.example.org/review"] } ] }

end Deepscope

namespace Deepscope

/-- Claim C1: with at least one `conflicting` record, or with equal nonzero
match/mismatch tallies and no `conflicting` record, the aggregated verdict has
status `conflicting` and confidence exactly `0.5`. -/
theorem aggregate_conflicting_cases (rs : List SourceResult) :
    (0 < conflictingCount rs →
      (aggregate_source_results rs).verdict.status = "conflicting" ∧
      (aggregate_source_results rs).verdict.confidence = 1/2) ∧
    (matchCount rs = mismatchCount rs → 0 < matchCount rs → conflictingCount rs = 0 →
      (aggregate_source_results rs).verdict.status = "conflicting" ∧
      (aggregate_source_results rs).verdict.confidence = 1/2) := by
  unfold aggregate_source_results matchCount mismatchCount conflictingCount
  simp only []
  constructor
  · intro hc
    repeat' first | exact ⟨rfl, rfl⟩ | (exfalso; omega) | split
  · intro heq hm hc
    repeat' first | exact ⟨rfl, rfl⟩ | (exfalso; omega) | split

/-- Witness for C1 at concrete inputs: one `conflicting` record, and a
`match`/`mismatch` tie. -/
theorem aggregate_conflicting_cases_witness :
    (aggregate_source_results [⟨"conflicting"⟩]).verdict.status = "conflicting" ∧
    (aggregate_source_results [⟨"match"⟩, ⟨"mismatch"⟩]).verdict.confidence = 1/2 :=
  ⟨((aggregate_conflicting_cases [⟨"conflicting"⟩]).1 (by decide)).1,
   ((aggregate_conflicting_cases [⟨"match"⟩, ⟨"mismatch"⟩]).2 (by decide) (by decide)
      (by decide)).2⟩

/-- Claim C2: with no `conflicting` record, a strict `match` majority yields
status `true` with confidence `match_count / (match_count + mismatch_count)`,
and a strict `mismatch` majority yields status `false` with confidence
`mismatch_count / (match_count + mismatch_count)`. -/
theorem aggregate_majority_cases (rs : List SourceResult) :
    (conflictingCount rs = 0 → mismatchCount rs < matchCount rs →
      (aggregate_source_results rs).verdict.status = "true" ∧
      (aggregate_source_results rs).verdict.confidence =
        (matchCount rs : ℚ) / ((matchCount rs : ℚ) + (mismatchCount rs : ℚ))) ∧
    (conflictingCount rs = 0 → matchCount rs < mismatchCount rs →
      (aggregate_source_results rs).verdict.status = "false" ∧
      (aggregate_source_results rs).verdict.confidence =
        (mismatchCount rs : ℚ) / ((matchCount rs : ℚ) + (mismatchCount rs : ℚ))) := by
  unfold aggregate_source_results matchCount mismatchCount conflictingCount
  simp only []
  constructor
  · intro hc hlt
    repeat' first | exact ⟨rfl, rfl⟩ | (exfalso; omega) | split
  · intro hc hlt
    repeat' first | exact ⟨rfl, rfl⟩ | (exfalso; omega) | split

/-- Witness for C2: two supporting records against one contradicting record,
and the symmetric input. -/
theorem aggregate_majority_cases_witness :
    ((aggregate_source_results [⟨"match"⟩, ⟨"match"⟩, ⟨"mismatch"⟩]).verdict.status = "true" ∧
      (aggregate_source_results [⟨"match"⟩, ⟨"match"⟩, ⟨"mismatch"⟩]).verdict.confidence =
        (matchCount [⟨"match"⟩, ⟨"match"⟩, ⟨"mismatch"⟩] : ℚ) /
          ((matchCount [⟨"match"⟩, ⟨"match"⟩, ⟨"mismatch"⟩] : ℚ) +
            (mismatchCount [⟨"match"⟩, ⟨"match"⟩, ⟨"mismatch"⟩] : ℚ))) ∧
    (aggregate_source_results [⟨"mismatch"⟩, ⟨"mismatch"⟩, ⟨"match"⟩]).verdict.status = "false" :=
  ⟨(aggregate_majority_cases [⟨"match"⟩, ⟨"match"⟩, ⟨"mismatch"⟩]).1 (by decide) (by decide),
   ((aggregate_majority_cases [⟨"mismatch"⟩, ⟨"mismatch"⟩, ⟨"match"⟩]).2 (by decide)
      (by decide)).1⟩

/-- For a strict majority `mm < m`, the proportion `m / (m + mm)` lies in
`(1/2, 1]`. -/
theorem majority_ratio_bounds (m mm : Nat) (h : mm < m) :
    (1:ℚ)/2 < (m : ℚ) / ((m : ℚ) + (mm : ℚ)) ∧ (m : ℚ) / ((m : ℚ) + (mm : ℚ)) ≤ 1 := by
  have hmQ : (mm : ℚ) < (m : ℚ) := by exact_mod_cast h
  have hmm0 : (0:ℚ) ≤ (mm : ℚ) := by positivity
  have hpos : (0:ℚ) < (m : ℚ) + (mm : ℚ) := by linarith
  constructor
  · rw [div_lt_div_iff₀ (by norm_num) hpos]
    linarith
  · rw [div_le_one hpos]
    linarith

/-- Claim C9: an aggregated verdict whose status is `true` or `false` always
carries a confidence strictly above `0.5` and at most `1`. -/
theorem aggregate_verified_confidence_bounds (rs : List SourceResult) :
    ((aggregate_source_results rs).verdict.status = "true" ∨
      (aggregate_source_results rs).verdict.status = "false") →
    1/2 < (aggregate_source_results rs).verdict.confidence ∧
      (aggregate_source_results rs).verdict.confidence ≤ 1 := by
  unfold aggregate_source_results
  simp only []
  split
  · intro h
    rcases h with h | h <;> simp at h
  · split
    · intro h
      rcases h with h | h <;> simp at h
    · split
      · rename_i hgt
        intro _
        exact majority_ratio_bounds _ _ hgt
      · split
        · rename_i hgt
          intro _
          simpa [add_comm] using majority_ratio_bounds _ _ hgt
        · intro h
          rcases h with h | h <;> simp at h

/-- Witness for C9: a single supporting record yields status `true`; the
theorem then bounds its confidence. -/
theorem aggregate_verified_confidence_bounds_witness :
    1/2 < (aggregate_source_results [⟨"match"⟩]).verdict.confidence ∧
      (aggregate_source_results [⟨"match"⟩]).verdict.confidence ≤ 1 :=
  aggregate_verified_confidence_bounds [⟨"match"⟩] (Or.inl (by decide))

/-- Counterexample for C7 as frozen: at the empty source list the summary is
capitalised `"No sources provided relevant data"`, not the quoted lowercase
sentence. -/
theorem aggregate_unverified_summary_counterexample :
    (aggregate_source_results []).verdict.status = "unverified" ∧
    (aggregate_source_results []).verdict.confidence = 0 ∧
    (aggregate_source_results []).verdict.summary ≠ "no sources provided relevant data" := by
  refine ⟨rfl, by norm_num [aggregate_source_results], by decide⟩

/-- Claim C7 (amended): whenever the match, mismatch and conflicting tallies
are all zero — in particular for the empty list and for all-`no_data` lists —
the aggregator returns status `unverified`, confidence `0.0` and the summary
`"No sources provided relevant data"`. -/
theorem aggregate_unverified_case (rs : List SourceResult) :
    matchCount rs = 0 → mismatchCount rs = 0 → conflictingCount rs = 0 →
    (aggregate_source_results rs).verdict =
      { status := "unverified", confidence := 0,
        summary := "No sources provided relevant data" } := by
  unfold aggregate_source_results matchCount mismatchCount conflictingCount
  simp only []
  intro hm hmm hc
  repeat' first | rfl | (exfalso; omega) | split

/-- Witness for C7 (amended) at the empty list and at an all-`no_data` list. -/
theorem aggregate_unverified_case_witness :
    (aggregate_source_results []).verdict =
      { status := "unverified", confidence := 0,
        summary := "No sources provided relevant data" } ∧
    (aggregate_source_results [⟨"no_data"⟩, ⟨"no_data"⟩]).verdict =
      { status := "unverified", confidence := 0,
        summary := "No sources provided relevant data" } :=
  ⟨aggregate_unverified_case [] (by decide) (by decide) (by decide),
   aggregate_unverified_case [⟨"no_data"⟩, ⟨"no_data"⟩] (by decide) (by decide) (by decide)⟩

/-- The status of an aggregated verdict is always one of the four enumerated
values. -/
theorem aggregate_status_cases (rs : List SourceResult) :
    (aggregate_source_results rs).verdict.status = "unverified" ∨
    (aggregate_source_results rs).verdict.status = "conflicting" ∨
    (aggregate_source_results rs).verdict.status = "true" ∨
    (aggregate_source_results rs).verdict.status = "false" := by
  unfold aggregate_source_results
  simp only []
  split
  · exact Or.inl rfl
  · split
    · exact Or.inr (Or.inl rfl)
    · split
      · exact Or.inr (Or.inr (Or.inl rfl))
      · split
        · exact Or.inr (Or.inr (Or.inr rfl))
        · exact Or.inr (Or.inl rfl)

/-- Attaching a processing time does not change the verdict of a per-claim
result entry. -/
theorem claim_result_entry_verdict (pt : String → Option ℚ) (cr : ClaimResult) :
    (claim_result_entry pt cr).verdict =
      (aggregate_source_results cr.checked_sources).verdict := rfl

/-- On entries produced by `aggregate_verdicts`, the code's test
`status not in ["unverified", "conflicting"]` agrees with the test
`status in ["true", "false"]`. -/
theorem verified_pred_eq (pt : String → Option ℚ) (cr : ClaimResult) :
    (!((claim_result_entry pt cr).verdict.status == "unverified" ||
        (claim_result_entry pt cr).verdict.status == "conflicting")) =
      ((claim_result_entry pt cr).verdict.status == "true" ||
        (claim_result_entry pt cr).verdict.status == "false") := by
  rw [claim_result_entry_verdict]
  rcases aggregate_status_cases cr.checked_sources with h | h | h | h <;> rw [h] <;> rfl

/-- The two verified-claims filters of `aggregate_verdicts` coincide. -/
theorem verified_filter_eq (crs : List ClaimResult) (pt : String → Option ℚ) :
    (crs.map (claim_result_entry pt)).filter
        (fun r => !(r.verdict.status == "unverified" || r.verdict.status == "conflicting")) =
      (crs.map (claim_result_entry pt)).filter
        (fun r => r.verdict.status == "true" || r.verdict.status == "false") := by
  refine List.filter_congr ?_
  intro a ha
  rcases List.mem_map.mp ha with ⟨cr, _, rfl⟩
  exact verified_pred_eq pt cr

/-- Claim C3: `total_claims` is the number of per-claim results,
`verified_claims` counts exactly the results with status `true` or `false`,
and `average_confidence` is the arithmetic mean of the confidences of those
verified results, `0` when there are none. -/
theorem aggregate_verdicts_summary_spec (crs : List ClaimResult)
    (pt : String → Option ℚ) :
    (aggregate_verdicts crs pt).summary.total_claims = crs.length ∧
    (aggregate_verdicts crs pt).summary.verified_claims =
      ((aggregate_verdicts crs pt).aggregated_results.filter
        (fun r => r.verdict.status == "true" || r.verdict.status == "false")).length ∧
    (aggregate_verdicts crs pt).summary.average_confidence =
      (if ((aggregate_verdicts crs pt).aggregated_results.filter
            (fun r => r.verdict.status == "true" || r.verdict.status == "false")).length = 0
        then 0
        else (((aggregate_verdicts crs pt).aggregated_results.filter
                (fun r => r.verdict.status == "true" || r.verdict.status == "false")).map
                  (fun r => r.verdict.confidence)).sum /
              ((((aggregate_verdicts crs pt).aggregated_results.filter
                (fun r => r.verdict.status == "true" || r.verdict.status == "false")).length : ℚ))) := by
  unfold aggregate_verdicts
  simp only []
  rw [verified_filter_eq crs pt]
  refine ⟨by rw [List.length_map], rfl, ?_⟩
  by_cases h0 :
      ((crs.map (claim_result_entry pt)).filter
        (fun r => r.verdict.status == "true" || r.verdict.status == "false")).length = 0
  · rw [if_pos h0]
    have hnil := List.length_eq_zero.mp h0
    rw [hnil]
    rfl
  · rw [if_neg h0]
    have hne :
        ¬((crs.map (claim_result_entry pt)).filter
            (fun r => r.verdict.status == "true" || r.verdict.status == "false")).map
              (fun r => r.verdict.confidence) = [] := by
      intro hmapnil
      exact h0 (by simpa [List.length_map] using congrArg List.length hmapnil)
    rw [if_neg (by simpa [List.isEmpty_iff] using hne)]
    rw [List.length_map]

/-- Splitting a list by a predicate and its pointwise complement partitions
its length. -/
theorem filter_length_partition {α : Type} (p q : α → Bool) (l : List α)
    (h : ∀ a, p a = !(q a)) :
    (l.filter p).length + (l.filter q).length = l.length := by
  induction l with
  | nil => rfl
  | cons a t ih =>
      by_cases hq : q a
      · have hp : p a = false := by rw [h a, hq]; rfl
        simp only [List.filter_cons, hp, hq, if_pos, if_neg, Bool.false_eq_true,
          ite_false, ite_true, List.length_cons]
        omega
      · have hp : p a = true := by rw [h a]; simp [hq]
        simp only [List.filter_cons, hp, hq, Bool.false_eq_true, ite_false,
          ite_true, List.length_cons]
        omega

/-- Claim C10: the batch summary satisfies
`verified_claims + unverified_claims = total_claims`, `unverified_claims` is
computed as the difference, and it counts exactly the results whose status is
`unverified` or `conflicting`. -/
theorem aggregate_verdicts_counts (crs : List ClaimResult)
    (pt : String → Option ℚ) :
    (aggregate_verdicts crs pt).summary.verified_claims +
        (aggregate_verdicts crs pt).summary.unverified_claims =
      (aggregate_verdicts crs pt).summary.total_claims ∧
    (aggregate_verdicts crs pt).summary.unverified_claims =
      (aggregate_verdicts crs pt).summary.total_claims -
        (aggregate_verdicts crs pt).summary.verified_claims ∧
    (aggregate_verdicts crs pt).summary.unverified_claims =
      ((aggregate_verdicts crs pt).aggregated_results.filter
        (fun r => r.verdict.status == "unverified" ||
          r.verdict.status == "conflicting")).length := by
  unfold aggregate_verdicts
  simp only []
  have hpart := filter_length_partition
    (fun (r : ClaimVerdictResult) =>
      !(r.verdict.status == "unverified" || r.verdict.status == "conflicting"))
    (fun (r : ClaimVerdictResult) =>
      r.verdict.status == "unverified" || r.verdict.status == "conflicting")
    (crs.map (claim_result_entry pt))
    (fun _ => rfl)
  refine ⟨?_, ?_, ?_⟩
  · omega
  · trivial
  · omega

/-- Claim C5: a rating whose lowered text contains some falsity indicator is
classified `mismatch` (truth indicators notwithstanding, since the falsity
loop runs first), and a rating whose lowered text contains no indicator from
either list is classified `no_data`. -/
theorem interpret_rating_spec (s : List Char) :
    (false_indicators.any
        (fun ind => containsChars ind (s.map Char.toLower)) = true →
      interpret_rating s = "mismatch") ∧
    (false_indicators.any
        (fun ind => containsChars ind (s.map Char.toLower)) = false →
      true_indicators.any
        (fun ind => containsChars ind (s.map Char.toLower)) = false →
      interpret_rating s = "no_data") := by
  constructor
  · intro hfalse
    match s with
    | [] => exact absurd hfalse (by decide)
    | c :: cs =>
        unfold interpret_rating
        rw [if_neg (by simp)]
        simp only []
        rw [if_pos hfalse]
  · intro hfalse htrue
    match s with
    | [] => rfl
    | c :: cs =>
        unfold interpret_rating
        rw [if_neg (by simp)]
        simp only []
        rw [if_neg (by rw [hfalse]; decide), if_neg (by rw [htrue]; decide)]

/-- Witness for C5: a rating containing both a falsity and a truth indicator
classifies `mismatch`; an indicator-free rating classifies `no_data`. -/
theorem interpret_rating_spec_witness :
    interpret_rating (String.toList "Mostly False, but some say it is accurate") =
      "mismatch" ∧
    interpret_rating (String.toList "Unproven") = "no_data" :=
  ⟨(interpret_rating_spec (String.toList "Mostly False, but some say it is accurate")).1
      (by decide),
   (interpret_rating_spec (String.toList "Unproven")).2 (by decide) (by decide)⟩

/-- The `all_reviews` list of `check_claim` is the interpreted image of the
flattened review list. -/
theorem all_reviews_map (cs : List GoogleClaim) :
    (cs.map (fun item => item.claimReview.map interpretReview)).flatten =
      (allReviewsOf cs).map interpretReview := by
  unfold allReviewsOf
  rw [List.map_flatten, List.map_map]
  rfl

/-- The match tally over interpreted reviews is `googleMatchTally`. -/
theorem countP_interpreted_match (cs : List GoogleClaim) :
    ((allReviewsOf cs).map interpretReview).countP
        (fun r => r.interpreted_rating == "match") = googleMatchTally cs := by
  rw [List.countP_map]
  rfl

/-- The mismatch tally over interpreted reviews is `googleMismatchTally`. -/
theorem countP_interpreted_mismatch (cs : List GoogleClaim) :
    ((allReviewsOf cs).map interpretReview).countP
        (fun r => r.interpreted_rating == "mismatch") = googleMismatchTally cs := by
  rw [List.countP_map]
  rfl

/-- Claim C6: on a successful 200 response, `check_claim` combines the
interpreted provider ratings into a single verification: no matches and no
mismatches gives `no_data`, only matches gives `match`, only mismatches gives
`mismatch`, and a nonzero mix gives `conflicting`. -/
theorem check_claim_combines (cs : List GoogleClaim) :
    (check_claim [AttemptOutcome.responds ⟨200, cs⟩]).verification =
      (if googleMatchTally cs = 0 ∧ googleMismatchTally cs = 0 then "no_data"
       else if 0 < googleMatchTally cs ∧ googleMismatchTally cs = 0 then "match"
       else if 0 < googleMismatchTally cs ∧ googleMatchTally cs = 0 then "mismatch"
       else "conflicting") := by
  by_cases hcs : cs = []
  · subst hcs
    decide
  · rw [show check_claim [AttemptOutcome.responds ⟨200, cs⟩] =
        check_claim_response ⟨200, cs⟩ from rfl]
    unfold check_claim_response
    simp only []
    rw [if_neg (by simp)]
    rw [if_neg (by simp [List.isEmpty_iff, hcs])]
    rw [all_reviews_map, countP_interpreted_match, countP_interpreted_mismatch]
    by_cases hrev : allReviewsOf cs = []
    · rw [if_pos (by simp [List.isEmpty_iff, hrev])]
      unfold googleMatchTally googleMismatchTally
      rw [hrev]
      rw [if_pos (by constructor <;> rfl)]
      rfl
    · rw [if_neg (by simp [List.isEmpty_iff, hrev])]

/-- Claim C8: `check_claim` never propagates provider failures — an
exception escaping the retry wrapper yields a `no_data` record carrying the
error text, a non-200 response yields a `no_data` record carrying the status
code text, and three consecutive 403 responses (the exhausted retry bound)
also yield `no_data`. -/
theorem check_claim_failures :
    (∀ (attempts : List AttemptOutcome) (msg : String),
      retry_with_backoff attempts = Except.error msg →
      (check_claim attempts).verification = "no_data" ∧
      (check_claim attempts).evidence = GEvidence.error_text msg) ∧
    (∀ (attempts : List AttemptOutcome) (r : HttpResponse),
      retry_with_backoff attempts = Except.ok r → r.status_code ≠ 200 →
      (check_claim attempts).verification = "no_data" ∧
      (check_claim attempts).evidence =
        GEvidence.api_response ("Status code: " ++ toString r.status_code)) ∧
    (∀ r1 r2 r3 : HttpResponse,
      r1.status_code = 403 → r2.status_code = 403 → r3.status_code = 403 →
      (check_claim [AttemptOutcome.responds r1, AttemptOutcome.responds r2,
        AttemptOutcome.responds r3]).verification = "no_data") := by
  have herr : ∀ (attempts : List AttemptOutcome) (msg : String),
      retry_with_backoff attempts = Except.error msg →
      (check_claim attempts).verification = "no_data" ∧
      (check_claim attempts).evidence = GEvidence.error_text msg := by
    intro attempts msg h
    unfold check_claim
    rw [h]
    exact ⟨rfl, rfl⟩
  have hstatus : ∀ (attempts : List AttemptOutcome) (r : HttpResponse),
      retry_with_backoff attempts = Except.ok r → r.status_code ≠ 200 →
      (check_claim attempts).verification = "no_data" ∧
      (check_claim attempts).evidence =
        GEvidence.api_response ("Status code: " ++ toString r.status_code) := by
    intro attempts r h hne
    unfold check_claim
    rw [h]
    rw [show check_claim_result (Except.ok r) = check_claim_response r from rfl]
    unfold check_claim_response
    rw [if_pos hne]
    exact ⟨rfl, rfl⟩
  refine ⟨herr, hstatus, ?_⟩
  intro r1 r2 r3 h1 h2 h3
  have hretry : retry_with_backoff [AttemptOutcome.responds r1, AttemptOutcome.responds r2,
      AttemptOutcome.responds r3] = Except.ok r3 := by
    simp [retry_with_backoff, h1, h2, h3]
  exact (hstatus _ r3 hretry (by omega)).1

/-- Witness for C8: an exception message is surfaced; a persistent-403 run
and a 500 response both degrade to `no_data`. -/
theorem check_claim_failures_witness :
    ((check_claim [AttemptOutcome.raises "boom", AttemptOutcome.raises "boom",
        AttemptOutcome.raises "boom"]).verification = "no_data" ∧
      (check_claim [AttemptOutcome.raises "boom", AttemptOutcome.raises "boom",
        AttemptOutcome.raises "boom"]).evidence = GEvidence.error_text "boom") ∧
    (check_claim [AttemptOutcome.responds ⟨403, []⟩, AttemptOutcome.responds ⟨403, []⟩,
      AttemptOutcome.responds ⟨403, []⟩]).verification = "no_data" ∧
    (check_claim [AttemptOutcome.responds ⟨500, []⟩]).verification = "no_data" :=
  ⟨check_claim_failures.1 [AttemptOutcome.raises "boom", AttemptOutcome.raises "boom",
      AttemptOutcome.raises "boom"] "boom" rfl,
   check_claim_failures.2.2 ⟨403, []⟩ ⟨403, []⟩ ⟨403, []⟩ rfl rfl rfl,
   (check_claim_failures.2.1 [AttemptOutcome.responds ⟨500, []⟩] ⟨500, []⟩ rfl
      (by decide)).1⟩

/-- Inversion of a successful Pydantic `FactCheckSource` construction: the
returned record carries exactly the supplied fields. -/
theorem mkFactCheckSource_ok_fields (sid sname stype ver : String) (conf : ℚ)
    (links : List String) (src : ServiceSource)
    (h : mkFactCheckSource sid sname stype ver conf links = Except.ok src) :
    src.source_id = sid ∧ src.source_name = sname ∧ src.source_type = stype ∧
    src.verification = ver ∧ src.confidence = conf ∧ src.reference_links = links := by
  unfold mkFactCheckSource at h
  split at h
  · injection h with hrec
    subst hrec
    exact ⟨rfl, rfl, rfl, rfl, rfl, rfl⟩
  · simp at h

/-- Counterexample for C4 as frozen: at a concrete LLM record whose
confidence `0.5` is below the `0.8` threshold, `FactChecker.check_fact`
returns the Google record alone, which differs from the LLM record — the LLM
adapter's verdict record is not surfaced, so the result is a partial subset
of the configured adapters' records. -/
theorem check_fact_partial_counterexample :
    cexLLM.evidence_confidence.getD 0 < llm_confidence_threshold ∧
    FactChecker_check_fact cexLLM cexGoogle = cexGoogle ∧
    cexGoogle ≠ cexLLM := by
  refine ⟨by norm_num [cexLLM, llm_confidence_threshold], ?_, by decide⟩
  unfold FactChecker_check_fact
  rw [if_neg (by norm_num [cexLLM, llm_confidence_threshold])]

/-- Claim C4 (amended): in the hybrid `FactChecker`, a sub-threshold LLM
confidence makes `check_fact` return the search-API adapter's record alone
(the LLM record is discarded), and a confidence at or above `0.8` makes it
return the LLM record alone.  The `FactCheckerService` variant validates
every record it builds against the Pydantic schemas and raises
`ValidationError` on a violation — in particular on an LLM verification
outside the four-value `Literal` — and whenever it returns normally
(validation succeeded) it surfaces the records of both configured adapters,
as the first two entries of its `sources` list, regardless of confidence. -/
theorem check_fact_adapter_records :
    (∀ llm_result google_result : AdapterRecord,
      llm_result.evidence_confidence.getD 0 < llm_confidence_threshold →
      FactChecker_check_fact llm_result google_result = google_result) ∧
    (∀ llm_result google_result : AdapterRecord,
      llm_confidence_threshold ≤ llm_result.evidence_confidence.getD 0 →
      FactChecker_check_fact llm_result google_result = llm_result) ∧
    (∀ (validUrl : String → Bool) (claim : String) (llm_res : ServiceLLMResult)
        (google_res : ServiceGoogleResult) (result : ServiceCheckResult),
      FactCheckerService_check_fact validUrl claim llm_res google_res =
        Except.ok result →
      (result.sources.get? 0).map
          (fun src => (src.source_type, src.verification, src.confidence)) =
        some ("llm", llm_res.verification, llm_res.confidence) ∧
      (result.sources.get? 1).map
          (fun src => (src.source_type, src.source_name, src.verification)) =
        some ("api", "Google Fact Check Tools", google_res.verification)) ∧
    (∀ (validUrl : String → Bool) (claim : String) (llm_res : ServiceLLMResult)
        (google_res : ServiceGoogleResult),
      llm_res.reference_links.all validUrl = true →
      validVerification llm_res.verification = false →
      FactCheckerService_check_fact validUrl claim llm_res google_res =
        Except.error "ValidationError: FactCheckSource") := by
  refine ⟨?_, ?_, ?_, ?_⟩
  · intro llm_result google_result h
    unfold FactChecker_check_fact
    rw [if_neg (not_le.mpr h)]
  · intro llm_result google_result h
    unfold FactChecker_check_fact
    rw [if_pos h]
  · intro validUrl claim llm_res google_res result h
    unfold FactCheckerService_check_fact at h
    simp only [] at h
    split at h
    · simp at h
    · rename_i llm_links heq_llm_ev
      split at h
      · simp at h
      · rename_i llm_source heq_llm_src
        split at h
        · simp at h
        · rename_i google_links heq_google_ev
          split at h
          · simp at h
          · rename_i google_source heq_google_src
            split at h
            · simp at h
            · rename_i review_sources heq_reviews
              injection h with h'
              subst h'
              obtain ⟨_, _, hltype, hlver, hlconf, _⟩ :=
                mkFactCheckSource_ok_fields _ _ _ _ _ _ _ heq_llm_src
              obtain ⟨_, hgname, hgtype, hgver, _, _⟩ :=
                mkFactCheckSource_ok_fields _ _ _ _ _ _ _ heq_google_src
              constructor
              · simp [hltype, hlver, hlconf]
              · simp [hgtype, hgname, hgver]
  · intro validUrl claim llm_res google_res hlinks hver
    unfold FactCheckerService_check_fact mkEvidence mkFactCheckSource
    simp only []
    rw [if_pos hlinks]
    simp only []
    rw [if_neg (show ¬((validSourceType "llm" && validVerification llm_res.verification &&
        validConfidence llm_res.confidence) = true) by simp [validSourceType, hver])]

/-- Witness for C4 (amended): both branches of the hybrid checker, a
validated service call surfacing both adapter records, and a service call
rejected by validation, all at concrete inputs. -/
theorem check_fact_adapter_records_witness :
    FactChecker_check_fact cexLLM cexGoogle = cexGoogle ∧
    FactChecker_check_fact
        { source_name := "LLM Fact Checker", verification := "match",
          evidence_confidence := some 1 } cexGoogle =
      { source_name := "LLM Fact Checker", verification := "match",
        evidence_confidence := some 1 } ∧
    ((wServiceResult.sources.get? 0).map
        (fun src => (src.source_type, src.verification, src.confidence)) =
      some ("llm", wLLMResult.verification, wLLMResult.confidence) ∧
     (wServiceResult.sources.get? 1).map
        (fun src => (src.source_type, src.source_name, src.verification)) =
      some ("api", "Google Fact Check Tools", wGoogleResult.verification)) ∧
    FactCheckerService_check_fact wValidUrl "w" wBadLLMResult wGoogleResult =
      Except.error "ValidationError: FactCheckSource" :=
  ⟨check_fact_adapter_records.1 cexLLM cexGoogle
      (by norm_num [cexLLM, llm_confidence_threshold]),
   check_fact_adapter_records.2.1
      { source_name := "LLM Fact Checker", verification := "match",
        evidence_confidence := some 1 } cexGoogle
      (by norm_num [llm_confidence_threshold]),
   check_fact_adapter_records.2.2.1 wValidUrl "w" wLLMResult wGoogleResult
      wServiceResult (by with_unfolding_all rfl),
   check_fact_adapter_records.2.2.2 wValidUrl "w" wBadLLMResult wGoogleResult
      (by rfl) (by rfl)⟩

end Deepscope
